import Mathlib

/-!
Shallow embedding of the CareFlow mobile app's recording core and its
collaborators, translated from the TypeScript sources:

* the `useRecording` hook (recording lifecycle state machine: start, stop,
  pause/resume toggle, cancel, and the audio-metering interval callback);
* `PatientService` (`saveConsultation`, `updateConsultation` over the
  persisted consultation list);
* `TranscriptionService` (`transcribeAudio`, `formatMedicalNote`,
  `processAudioToMedicalNote`).

Timestamps are modelled as epoch milliseconds (`Int`); audio levels as `Rat`
(the dB-like metering scale, -160 = silence).  React state updates are given
their single-threaded sequential reading: a `set` call takes effect
immediately in the model state.  Device (expo-av `Audio.Recording`) behaviour
is part of the embedding where the hook depends on it: `stopAndUnloadAsync`
throws on an already-unloaded recording and marks the recorder done even when
the native stop errs, and `getStatusAsync` on an unloaded recording resolves
with a status whose `isRecording` is false rather than throwing.
-/

namespace CareFlow

/-- Consultation status from src/types/clinical.ts. -/
inductive CStatus where
  | recording
  | processing
  | completed
  | draft
deriving DecidableEq, Repr

/-- The persisted Consultation record from src/types/clinical.ts.  The ISO
timestamp strings `startedAt`/`completedAt` are modelled by their epoch value
(`startedAt : Int`); optional fields are `Option`s. -/
structure Consultation where
  id : String
  appointmentId : String
  patientId : String
  audioUri : String
  duration : Int
  transcription : Option String
  formattedNote : Option String
  startedAt : Int
  completedAt : Option Int
  status : CStatus
deriving DecidableEq, Repr

/-- A `Partial<Consultation>` update object: a field that is `some v` is
present in the update and overrides the stored field on spread-merge. -/
structure ConsultationPatch where
  id : Option String := none
  appointmentId : Option String := none
  patientId : Option String := none
  audioUri : Option String := none
  duration : Option Int := none
  transcription : Option String := none
  formattedNote : Option String := none
  startedAt : Option Int := none
  completedAt : Option Int := none
  status : Option CStatus := none
deriving DecidableEq, Repr

/-- The JS spread `{ ...c, ...updates }`: every key present in `updates`
overrides the corresponding field of `c`. -/
def spreadMerge (c : Consultation) (p : ConsultationPatch) : Consultation where
  id := p.id.getD c.id
  appointmentId := p.appointmentId.getD c.appointmentId
  patientId := p.patientId.getD c.patientId
  audioUri := p.audioUri.getD c.audioUri
  duration := p.duration.getD c.duration
  transcription := match p.transcription with
    | some v => some v
    | none => c.transcription
  formattedNote := match p.formattedNote with
    | some v => some v
    | none => c.formattedNote
  startedAt := p.startedAt.getD c.startedAt
  completedAt := match p.completedAt with
    | some v => some v
    | none => c.completedAt
  status := p.status.getD c.status

/-- `updateConsultation` from PatientService: map over the stored list and
spread-merge the update into every record whose id matches. -/
def updateConsultation (consultationId : String) (updates : ConsultationPatch)
    (consultations : List Consultation) : List Consultation :=
  consultations.map fun c =>
    if c.id = consultationId then spreadMerge c updates else c

/-- `saveConsultation` from PatientService: append the new record to the
stored list. -/
def saveConsultation (c : Consultation) (consultations : List Consultation) :
    List Consultation :=
  consultations ++ [c]

/-- A device recorder object (expo-av `Audio.Recording`).  `hid` is the object
identity; `loaded` is the recorder's internal can-record flag, cleared by
`stopAndUnloadAsync`. -/
structure Handle where
  hid : Nat
  loaded : Bool
deriving DecidableEq, Repr

/-- Platform discriminator (`Platform.OS` in React Native). -/
inductive Plat where
  | web
  | native
deriving DecidableEq, Repr

/-- Recording status returned by `getStatusAsync`: whether the device is
actively recording, and the metered level in dB when the platform provides
one. -/
structure RecStatus where
  isRecording : Bool
  metering : Option Rat
deriving DecidableEq, Repr

/-- The state held by the `useRecording` hook, together with the observable
effect log (persisted store, live device recorders, alerts shown, callbacks
fired, navigation).  `live` lists the ids of device recorders currently held
by the platform; `nextId` supplies fresh ids for `Audio.Recording.createAsync`. -/
structure HookState where
  appointmentId : String
  recording : Option Handle
  isRecording : Bool
  isPaused : Bool
  startTime : Option Int
  metering : Rat
  isMounted : Bool
  isInitializing : Bool
  store : List Consultation
  live : List Nat
  nextId : Nat
  alerts : List String
  errorsFired : Nat
  cancelsFired : Nat
  successFired : Option String
  navBack : Bool
deriving DecidableEq, Repr

/-- Environment for one `startRecording` call: the permission prompt outcome,
whether audio-mode setup and `Audio.Recording.createAsync` succeed, and the
wall-clock time at which capture begins. -/
structure StartEnv where
  permission : Bool
  acquireOk : Bool
  now : Int
deriving DecidableEq, Repr

/-- Environment for one `stopRecording` call: whether the native stop
completes without a device error, the artifact URI reported by `getURI`
(`none` models a null URI), the wall-clock stop time, the generated
consultation id (`Date.now().toString()`), and whether the store write
succeeds. -/
structure StopEnv where
  stopOk : Bool
  uri : Option String
  now : Int
  cid : String
  saveOk : Bool
deriving DecidableEq, Repr

/-- Environment for one `pauseResume` call: whether the device
`pauseAsync`/`startAsync` call succeeds. -/
structure PauseEnv where
  deviceOk : Bool
deriving DecidableEq, Repr

/-- `startRecording` from the `useRecording` hook.  Re-entry while a start is
in flight returns immediately; otherwise any existing recorder is stopped,
unloaded and cleared, then permission is requested: denial shows one alert and
navigates back, a device-acquisition error shows one alert and fires
`onError`, and success installs a fresh recorder, sets `isRecording` and
records `startTime`.  `setIsInitializing(false)` runs in the `finally` block
on every path. -/
def startRecording (env : StartEnv) (s : HookState) : HookState :=
  if s.isInitializing then s
  else
    let s1 := { s with isInitializing := true }
    let s2 :=
      match s1.recording with
      | some h =>
          { s1 with
            recording := none
            live := if h.loaded then s1.live.erase h.hid else s1.live }
      | none => s1
    if !env.permission then
      { s2 with
        alerts := s2.alerts ++ [("Microphone access is required to record consultations.")]
        navBack := true
        isInitializing := false }
    else if !env.acquireOk then
      { s2 with
        alerts := s2.alerts ++ [("Failed to start recording. Please try again.")]
        errorsFired := s2.errorsFired + 1
        navBack := true
        isInitializing := false }
    else
      { s2 with
        recording := some ⟨s2.nextId, true⟩
        live := s2.live ++ [s2.nextId]
        nextId := s2.nextId + 1
        isRecording := true
        startTime := some env.now
        isInitializing := false }

/-- The catch branch of `stopRecording`: one error alert plus one `onError`
invocation; nothing is persisted. -/
def stopFailed (s : HookState) : HookState :=
  { s with
    alerts := s.alerts ++ [("Failed to save recording. Please try again.")]
    errorsFired := s.errorsFired + 1 }

/-- `stopRecording` from the `useRecording` hook.  With no recorder it
returns immediately.  On a loaded recorder, `stopAndUnloadAsync` clears the
recorder's can-record flag and releases the device resource even when the
native stop errs (and then throws into the catch branch); a null URI throws;
otherwise `duration = Math.floor((now - startTime) / 1000)` (0 when
`startTime` is unset), one Consultation with status `processing` is persisted
via `saveConsultation`, and `onSuccess` fires.  On an already-unloaded
recorder `stopAndUnloadAsync` throws immediately, landing in the catch
branch. -/
def stopRecording (env : StopEnv) (s : HookState) : HookState :=
  match s.recording with
  | none => s
  | some h =>
    if h.loaded then
      let s1 :=
        { s with
          recording := some ⟨h.hid, false⟩
          live := s.live.erase h.hid }
      if env.stopOk then
        match env.uri with
        | none => stopFailed s1
        | some uri =>
          let dur : Int :=
            match s1.startTime with
            | some t0 => Int.fdiv (env.now - t0) 1000
            | none => 0
          let c : Consultation :=
            { id := env.cid
              appointmentId := s1.appointmentId
              patientId := ("")
              audioUri := uri
              duration := dur
              transcription := none
              formattedNote := none
              startedAt := s1.startTime.getD env.now
              completedAt := none
              status := CStatus.processing }
          if env.saveOk then
            { s1 with
              store := saveConsultation c s1.store
              successFired := some env.cid }
          else stopFailed s1
      else stopFailed s1
    else stopFailed s

/-- `pauseResume` from the `useRecording` hook: a single toggle.  With no
recorder it returns immediately; when paused it resumes capture, when not
paused it suspends capture and resets the metering display to the silence
floor; a device error shows one alert and fires `onError`. -/
def pauseResume (env : PauseEnv) (s : HookState) : HookState :=
  match s.recording with
  | none => s
  | some _ =>
    if s.isPaused then
      if env.deviceOk then { s with isPaused := false }
      else
        { s with
          alerts := s.alerts ++ [("Failed to pause/resume recording.")]
          errorsFired := s.errorsFired + 1 }
    else
      if env.deviceOk then { s with isPaused := true, metering := -160 }
      else
        { s with
          alerts := s.alerts ++ [("Failed to pause/resume recording.")]
          errorsFired := s.errorsFired + 1 }

/-- `cancelRecording` from the `useRecording` hook: clear the mounted flag,
stop and unload any recorder (errors swallowed; the recorder ends unloaded
either way), fire `onCancel` and navigate away.  Nothing is persisted. -/
def cancelRecording (s : HookState) : HookState :=
  let s1 := { s with isMounted := false }
  let s2 :=
    match s1.recording with
    | some h =>
        { s1 with
          recording := some ⟨h.hid, false⟩
          live := if h.loaded then s1.live.erase h.hid else s1.live }
    | none => s1
  { s2 with cancelsFired := s2.cancelsFired + 1 }

/-- The guard of the audio-metering effect (`if (!recording || !isRecording
|| isPaused || !isMounted) return`): the sampling interval exists exactly
while this holds of the committed state. -/
def meterEffectActive (s : HookState) : Bool :=
  s.recording.isSome && s.isRecording && !s.isPaused && s.isMounted

/-- `getStatusAsync` in the embedding: a loaded recorder answers with the
device-supplied result (which may be an error); an unloaded recorder resolves
with a done-status (`isRecording = false`, no metering) rather than throwing,
as expo-av's `Recording.getStatusAsync` does once the recorder is unloaded. -/
def getStatusModel (statusEnv : Except Unit RecStatus) (h : Handle) :
    Except Unit RecStatus :=
  if h.loaded then statusEnv else Except.ok ⟨false, none⟩

/-- One firing of the metering interval callback.  `rand` is the
`Math.random()` draw used by the web branch.  The callback bails out when the
hook is unmounted; otherwise it reads the recorder status, and on web
publishes a synthesized level `-50 + rand * 30` unconditionally, while on
native it publishes the device-reported level only while the status says the
device is recording and carries a metering value.  A status error is caught
and publishes nothing. -/
def tick (plat : Plat) (rand : Rat) (statusEnv : Except Unit RecStatus)
    (s : HookState) : HookState :=
  if !s.isMounted then s
  else
    match s.recording with
    | none => s
    | some h =>
      match getStatusModel statusEnv h with
      | Except.error _ => s
      | Except.ok status =>
        if plat = Plat.web then
          { s with metering := -50 + rand * 30 }
        else if status.isRecording then
          match status.metering with
          | some l => { s with metering := l }
          | none => s
        else s

/-- Coherence invariant tying the platform's live recorder list to the hook's
`recording` field: the recorder the hook holds is the only live one (when
loaded), ids are allocated below `nextId`. -/
def inv (s : HookState) : Bool :=
  match s.recording with
  | some h =>
      (if h.loaded then s.live = [h.hid] else s.live = []) && h.hid < s.nextId
  | none => s.live = []

/-- `transcribeAudio` from TranscriptionService.  A missing API key throws
(propagated to the caller, like every transcription failure); a backend
success returns `data.text || 'No transcription available'`, where the JS
`||` also replaces the empty string. -/
def transcribeAudio (keyPresent : Bool)
    (backend : Except Unit (Option String)) : Except Unit String :=
  if !keyPresent then Except.error ()
  else
    match backend with
    | Except.error e => Except.error e
    | Except.ok t =>
      Except.ok (match t with
        | some txt => if txt = ("") then ("No transcription available") else txt
        | none => ("No transcription available"))

/-- `formatMedicalNote` from TranscriptionService.  Every failure — missing
API key or backend error — is caught and the original text is returned as
the fallback; a backend success returns the formatted text. -/
def formatMedicalNote (keyPresent : Bool) (backend : Except Unit String)
    (text : String) : String :=
  if !keyPresent then text
  else
    match backend with
    | Except.ok formatted => formatted
    | Except.error _ => text

/-- `processAudioToMedicalNote` from TranscriptionService: transcribe, then
format, returning the pair `{transcription, formattedNote}`. -/
def processAudioToMedicalNote (tKey fKey : Bool)
    (tBackend : Except Unit (Option String)) (fBackend : Except Unit String) :
    Except Unit (String × String) :=
  match transcribeAudio tKey tBackend with
  | Except.error e => Except.error e
  | Except.ok transcription =>
      Except.ok (transcription, formatMedicalNote fKey fBackend transcription)

/-- A concrete session in the Recording state: one live loaded recorder with
id 0, capture started at epoch 0, nothing persisted yet. -/
def recState : HookState where
  appointmentId := ("apt1")
  recording := some ⟨0, true⟩
  isRecording := true
  isPaused := false
  startTime := some 0
  metering := -30
  isMounted := true
  isInitializing := false
  store := []
  live := [0]
  nextId := 1
  alerts := []
  errorsFired := 0
  cancelsFired := 0
  successFired := none
  navBack := false

/-- A stop environment in which every device and store step succeeds, at
wall-clock time 30000 ms. -/
def stopEnvOk : StopEnv where
  stopOk := true
  uri := some ("rec.m4a")
  now := 30000
  cid := ("1730000000000")
  saveOk := true

/-- The state after one successful stop of `recState`. -/
def stoppedOnce : HookState := stopRecording stopEnvOk recState

/-- The state after a second stop call on the already-stopped session. -/
def stoppedTwice : HookState := stopRecording stopEnvOk stoppedOnce

/-- A concrete stored consultation used by the store-update witnesses. -/
def consultA : Consultation where
  id := ("c1")
  appointmentId := ("apt1")
  patientId := ("p1")
  audioUri := ("a.m4a")
  duration := 30
  transcription := none
  formattedNote := none
  startedAt := 0
  completedAt := none
  status := CStatus.processing

/-- A second stored consultation with a different id. -/
def consultB : Consultation where
  id := ("c2")
  appointmentId := ("apt2")
  patientId := ("p2")
  audioUri := ("b.m4a")
  duration := 45
  transcription := none
  formattedNote := none
  startedAt := 100
  completedAt := none
  status := CStatus.draft

/-- An update that attaches a transcript and completes the record. -/
def patchA : ConsultationPatch where
  transcription := some ("hello")
  status := some CStatus.completed

/-- C9: the transcribe-and-format pipeline returns the
`{transcription, formattedNote}` pair, and whenever the formatting step fails
(missing API key or backend error) the formatted note falls back to the
unformatted transcript: `formatMedicalNote` returns its input text
unchanged on every error, and `processAudioToMedicalNote` then pairs the
transcript with itself. -/
theorem processAudio_format_fallback :
    (∀ (tKey fKey : Bool) (tBackend : Except Unit (Option String))
        (fBackend : Except Unit String),
        processAudioToMedicalNote tKey fKey tBackend fBackend =
          Except.map (fun t => (t, formatMedicalNote fKey fBackend t))
            (transcribeAudio tKey tBackend))
    ∧ (∀ (fBackend : Except Unit String) (text : String),
        formatMedicalNote false fBackend text = text)
    ∧ (∀ (fKey : Bool) (text : String),
        formatMedicalNote fKey (Except.error ()) text = text)
    ∧ (∀ (tKey fKey : Bool) (tBackend : Except Unit (Option String)),
        processAudioToMedicalNote tKey fKey tBackend (Except.error ()) =
          Except.map (fun t => (t, t)) (transcribeAudio tKey tBackend)) := by
  refine ⟨?_, ?_, ?_, ?_⟩
  · intro tKey fKey tBackend fBackend
    cases htr : transcribeAudio tKey tBackend <;>
      simp [processAudioToMedicalNote, htr, Except.map]
  · intro fBackend text
    simp [formatMedicalNote]
  · intro fKey text
    cases fKey <;> simp [formatMedicalNote]
  · intro tKey fKey tBackend
    cases htr : transcribeAudio tKey tBackend <;>
      cases fKey <;>
        simp [processAudioToMedicalNote, htr, Except.map, formatMedicalNote]

/-- C10: `updateConsultation` preserves the length of the stored list,
spread-merges the update into every stored record whose id matches, leaves
every record with a different id unchanged, and leaves the whole list
unchanged when no stored record has the given id. -/
theorem updateConsultation_frame (cid : String) (p : ConsultationPatch)
    (l : List Consultation) :
    (updateConsultation cid p l).length = l.length
    ∧ (∀ (i : Nat) (c : Consultation), l[i]? = some c → c.id ≠ cid →
        (updateConsultation cid p l)[i]? = some c)
    ∧ (∀ (i : Nat) (c : Consultation), l[i]? = some c → c.id = cid →
        (updateConsultation cid p l)[i]? = some (spreadMerge c p))
    ∧ ((∀ c ∈ l, c.id ≠ cid) → updateConsultation cid p l = l) := by
  refine ⟨?_, ?_, ?_, ?_⟩
  · simp [updateConsultation]
  · intro i c hget hne
    simp [updateConsultation, List.getElem?_map, hget, hne]
  · intro i c hget heq
    simp [updateConsultation, List.getElem?_map, hget, heq]
  · intro hall
    calc updateConsultation cid p l
        = l.map id := by
          refine List.map_congr_left ?_
          intro c hc
          simp [hall c hc]
      _ = l := List.map_id l

/-- Closed instance of the C10 frame property on a two-element store: the
matching record is merged, the other record and the length are untouched,
and a miss leaves the store unchanged. -/
theorem updateConsultation_frame_witness :
    ((consultA.id = ("c1")) ∧ (consultB.id ≠ ("c1")))
    ∧ (updateConsultation ("c1") patchA [consultA, consultB]).length = 2
    ∧ (updateConsultation ("c1") patchA [consultA, consultB])[0]? =
        some (spreadMerge consultA patchA)
    ∧ (updateConsultation ("c1") patchA [consultA, consultB])[1]? = some consultB
    ∧ updateConsultation ("zzz") patchA [consultA, consultB] =
        [consultA, consultB] := by
  refine ⟨by decide, ?_, ?_, ?_, ?_⟩
  · exact (updateConsultation_frame ("c1") patchA [consultA, consultB]).1
  · exact (updateConsultation_frame ("c1") patchA [consultA, consultB]).2.2.1 0
      consultA (by decide) (by decide)
  · exact (updateConsultation_frame ("c1") patchA [consultA, consultB]).2.1 1
      consultB (by decide) (by decide)
  · exact (updateConsultation_frame ("zzz") patchA [consultA, consultB]).2.2.2
      (by decide)

/-- C2: cancel, from any prior state, persists nothing: the stored
consultation list is untouched, every live device recorder is released, the
recorder the hook still references is unloaded, and the coherence invariant
is preserved. -/
theorem cancel_no_persist_releases (s : HookState) (hInv : inv s = true) :
    (cancelRecording s).store = s.store
    ∧ (cancelRecording s).live = []
    ∧ (∀ h : Handle, (cancelRecording s).recording = some h →
        h.loaded = false)
    ∧ inv (cancelRecording s) = true := by
  cases hrec : s.recording with
  | none =>
      simp [cancelRecording, inv, hrec] at hInv ⊢
      simp [hInv]
  | some h =>
      cases hl : h.loaded <;>
        simp [cancelRecording, inv, hrec, hl] at hInv ⊢ <;>
        simp [hInv]

/-- Closed instance of C2 on the concrete Recording-state session: the
invariant holds, and cancelling persists nothing and releases the live
recorder. -/
theorem cancel_no_persist_releases_witness :
    inv recState = true
    ∧ (cancelRecording recState).store = recState.store
    ∧ (cancelRecording recState).live = [] := by
  refine ⟨by decide, ?_, ?_⟩
  · exact (cancel_no_persist_releases recState (by decide)).1
  · exact (cancel_no_persist_releases recState (by decide)).2.1

/-- C8: while the hook is mounted with a loaded recorder on a native
platform, a device-reported silence level of -160 is published to the
metering state unchanged; and on native platforms the tick never synthesizes
a level — it either leaves the metering state alone or publishes exactly a
level the device reported while recording. -/
theorem silence_passthrough (s : HookState) (h : Handle) (r : Rat)
    (hm : s.isMounted = true) (hrec : s.recording = some h)
    (hl : h.loaded = true) :
    (tick Plat.native r (Except.ok ⟨true, some (-160)⟩) s).metering = -160
    ∧ ∀ statusEnv : Except Unit RecStatus,
        (tick Plat.native r statusEnv s).metering = s.metering
        ∨ getStatusModel statusEnv h =
            Except.ok ⟨true, some ((tick Plat.native r statusEnv s).metering)⟩ := by
  constructor
  · simp [tick, getStatusModel, hm, hrec, hl]
  · intro statusEnv
    cases statusEnv with
    | error e => simp [tick, getStatusModel, hm, hrec, hl]
    | ok status =>
      obtain ⟨sr, sm⟩ := status
      cases sr with
      | false => simp [tick, getStatusModel, hm, hrec, hl]
      | true =>
        cases sm with
        | none => simp [tick, getStatusModel, hm, hrec, hl]
        | some l =>
          right
          simp [tick, getStatusModel, hm, hrec, hl]

/-- Closed instance of C8: on the concrete Recording-state session, a native
tick carrying a device status of -160 publishes exactly -160. -/
theorem silence_passthrough_witness :
    recState.isMounted = true
    ∧ recState.recording = some ⟨0, true⟩
    ∧ (tick Plat.native 0 (Except.ok ⟨true, some (-160)⟩) recState).metering
        = -160 := by
  refine ⟨by decide, by decide, ?_⟩
  exact (silence_passthrough recState ⟨0, true⟩ 0 (by decide) (by decide)
    (by decide)).1

/-- Coherent live-handle lists hold at most one id. -/
theorem inv_live_length (s : HookState) (hInv : inv s = true) :
    s.live.length ≤ 1 := by
  unfold inv at hInv
  cases hrec : s.recording with
  | none =>
      rw [hrec] at hInv
      simp only [decide_eq_true_eq] at hInv
      simp [hInv]
  | some h =>
      rw [hrec] at hInv
      cases hl : h.loaded <;>
        simp only [hl, Bool.and_eq_true, decide_eq_true_eq, if_true,
          if_false, Bool.false_eq_true] at hInv <;>
        simp [hInv.1]

/-- C1: a stop request on a session holding a loaded recorder with a start
timestamp either persists exactly one Consultation whose duration is
`floor((now - startedAt) / 1000)` wall-clock seconds (pause time included,
since pause and resume never touch `startTime`) and fires `onSuccess`
without any error, or persists nothing and fires exactly one error — never
both and never neither. -/
theorem stop_commit_xor_fail (env : StopEnv) (s : HookState) (h : Handle)
    (t0 : Int) (hrec : s.recording = some h) (hl : h.loaded = true)
    (hstart : s.startTime = some t0) :
    Xor'
      (∃ c : Consultation,
        (stopRecording env s).store = s.store ++ [c]
        ∧ c.duration = Int.fdiv (env.now - t0) 1000
        ∧ (stopRecording env s).successFired = some c.id
        ∧ (stopRecording env s).errorsFired = s.errorsFired)
      ((stopRecording env s).store = s.store
        ∧ (stopRecording env s).errorsFired = s.errorsFired + 1) := by
  cases hok : env.stopOk with
  | false =>
      refine Or.inr ⟨⟨?_, ?_⟩, ?_⟩
      · simp [stopRecording, hrec, hl, hok, stopFailed]
      · simp [stopRecording, hrec, hl, hok, stopFailed]
      · rintro ⟨c, -, -, -, hc4⟩
        simp [stopRecording, hrec, hl, hok, stopFailed] at hc4
  | true =>
      cases huri : env.uri with
      | none =>
          refine Or.inr ⟨⟨?_, ?_⟩, ?_⟩
          · simp [stopRecording, hrec, hl, hok, huri, stopFailed]
          · simp [stopRecording, hrec, hl, hok, huri, stopFailed]
          · rintro ⟨c, -, -, -, hc4⟩
            simp [stopRecording, hrec, hl, hok, huri, stopFailed] at hc4
      | some u =>
          cases hsave : env.saveOk with
          | false =>
              refine Or.inr ⟨⟨?_, ?_⟩, ?_⟩
              · simp [stopRecording, hrec, hl, hok, huri, hsave, stopFailed]
              · simp [stopRecording, hrec, hl, hok, huri, hsave, stopFailed]
              · rintro ⟨c, -, -, -, hc4⟩
                simp [stopRecording, hrec, hl, hok, huri, hsave,
                  stopFailed] at hc4
          | true =>
              refine Or.inl ⟨⟨{ id := env.cid
                                appointmentId := s.appointmentId
                                patientId := ("")
                                audioUri := u
                                duration := Int.fdiv (env.now - t0) 1000
                                transcription := none
                                formattedNote := none
                                startedAt := t0
                                completedAt := none
                                status := CStatus.processing },
                  ?_, rfl, ?_, ?_⟩, ?_⟩
              · simp [stopRecording, hrec, hl, hok, huri, hsave, hstart,
                  saveConsultation]
              · simp [stopRecording, hrec, hl, hok, huri, hsave]
              · simp [stopRecording, hrec, hl, hok, huri, hsave]
              · rintro ⟨-, hb2⟩
                simp [stopRecording, hrec, hl, hok, huri, hsave] at hb2

/-- The Recording-state session after a pause at T0+5s and a resume at
T0+20s: the recorder is untouched and `startTime` is still T0. -/
def pausedThenResumed : HookState :=
  pauseResume ⟨true⟩ (pauseResume ⟨true⟩ recState)

/-- Closed instance of C1 realising the spec scenario: start at 0, pause,
resume, stop at 30000 ms with every device and store step succeeding — the
stop hypotheses hold concretely and the committed duration formula evaluates
to 30 seconds. -/
theorem stop_commit_xor_fail_witness :
    (pausedThenResumed.recording = some ⟨0, true⟩
      ∧ pausedThenResumed.startTime = some 0
      ∧ Int.fdiv (stopEnvOk.now - 0) 1000 = 30)
    ∧ Xor'
        (∃ c : Consultation,
          (stopRecording stopEnvOk pausedThenResumed).store =
            pausedThenResumed.store ++ [c]
          ∧ c.duration = Int.fdiv (stopEnvOk.now - 0) 1000
          ∧ (stopRecording stopEnvOk pausedThenResumed).successFired =
              some c.id
          ∧ (stopRecording stopEnvOk pausedThenResumed).errorsFired =
              pausedThenResumed.errorsFired)
        ((stopRecording stopEnvOk pausedThenResumed).store =
            pausedThenResumed.store
          ∧ (stopRecording stopEnvOk pausedThenResumed).errorsFired =
              pausedThenResumed.errorsFired + 1) := by
  refine ⟨by decide, ?_⟩
  exact stop_commit_xor_fail stopEnvOk pausedThenResumed ⟨0, true⟩ 0
    (by decide) (by decide) (by decide)

/-- C4: on a coherent state, a start call while a start is already in flight
is a complete no-op; every start call preserves coherence, leaves at most
one live device recorder, and any recorder held before the call is no longer
live afterwards — the transition into initialization releases the
pre-existing handle before acquiring a new one. -/
theorem start_single_handle (env : StartEnv) (s : HookState)
    (hInv : inv s = true) :
    (s.isInitializing = true → startRecording env s = s)
    ∧ inv (startRecording env s) = true
    ∧ (startRecording env s).live.length ≤ 1
    ∧ (∀ h : Handle, s.recording = some h → s.isInitializing = false →
        h.hid ∉ (startRecording env s).live) := by
  cases hini : s.isInitializing with
  | true =>
      have hid : startRecording env s = s := by simp [startRecording, hini]
      refine ⟨fun _ => hid, ?_, ?_, ?_⟩
      · rw [hid]; exact hInv
      · rw [hid]; exact inv_live_length s hInv
      · intro h _ habs
        exact absurd habs (by simp)
  | false =>
      have hlive2 :
          (match s.recording with
            | some h => if h.loaded then s.live.erase h.hid else s.live
            | none => s.live) = [] := by
        unfold inv at hInv
        cases hrec : s.recording with
        | none =>
            rw [hrec] at hInv
            simp only [decide_eq_true_eq] at hInv
            simp [hInv]
        | some h =>
            rw [hrec] at hInv
            cases hl : h.loaded <;>
              simp only [hl, Bool.and_eq_true, decide_eq_true_eq, if_true,
                if_false, Bool.false_eq_true] at hInv <;>
              simp [hl, hInv.1]
      have hhid : ∀ h : Handle, s.recording = some h → h.hid < s.nextId := by
        intro h hrec
        unfold inv at hInv
        rw [hrec] at hInv
        simp only [Bool.and_eq_true, decide_eq_true_eq] at hInv
        exact hInv.2
      refine ⟨fun habs => absurd habs (by simp [hini]), ?_, ?_, ?_⟩
      · cases hrec : s.recording <;>
          cases hperm : env.permission <;>
            cases hacq : env.acquireOk <;>
              · have h2 := hlive2
                rw [hrec] at h2
                simp [startRecording, inv, hini, hrec, hperm, hacq] at h2 ⊢
                simp [h2]
      · cases hrec : s.recording <;>
          cases hperm : env.permission <;>
            cases hacq : env.acquireOk <;>
              · have h2 := hlive2
                rw [hrec] at h2
                simp [startRecording, hini, hrec, hperm, hacq] at h2 ⊢
                simp [h2]
      · intro h hrec _
        have hfacts := hInv
        unfold inv at hfacts
        rw [hrec] at hfacts
        cases hl : h.loaded with
        | false =>
            simp only [hl, Bool.false_eq_true, if_false, Bool.and_eq_true,
              decide_eq_true_eq] at hfacts
            obtain ⟨hlive, hlt⟩ := hfacts
            cases hperm : env.permission <;>
              cases hacq : env.acquireOk <;>
                simp [startRecording, hini, hrec, hperm, hacq, hl, hlive] <;>
                  omega
        | true =>
            simp only [hl, if_true, Bool.and_eq_true,
              decide_eq_true_eq] at hfacts
            obtain ⟨hlive, hlt⟩ := hfacts
            cases hperm : env.permission <;>
              cases hacq : env.acquireOk <;>
                simp [startRecording, hini, hrec, hperm, hacq, hl, hlive] <;>
                  omega

/-- Closed instance of C4 on the concrete Recording-state session: the
coherence invariant holds, a re-entrant start is a no-op, and a genuine
restart leaves recorder 0 released. -/
theorem start_single_handle_witness :
    inv recState = true
    ∧ (startRecording ⟨true, true, 50⟩
        { recState with isInitializing := true } =
          { recState with isInitializing := true })
    ∧ (0 : Nat) ∉ (startRecording ⟨true, true, 50⟩ recState).live := by
  refine ⟨by decide, ?_, ?_⟩
  · exact (start_single_handle ⟨true, true, 50⟩
      { recState with isInitializing := true } (by decide)).1 rfl
  · exact (start_single_handle ⟨true, true, 50⟩ recState (by decide)).2.2.2
      ⟨0, true⟩ (by decide) (by decide)

/-- C6: a start call on a fresh session whose permission prompt is denied
acquires no device recorder (no recorder installed, no id allocated, the
live list untouched), persists nothing, fires exactly one failure alert and
no `onError`, and routes the user away — a terminal failure with no retry
inside the hook. -/
theorem permission_denied_terminal (env : StartEnv) (s : HookState)
    (hperm : env.permission = false) (hrec : s.recording = none)
    (hinit : s.isInitializing = false) :
    (startRecording env s).recording = none
    ∧ (startRecording env s).isRecording = s.isRecording
    ∧ (startRecording env s).nextId = s.nextId
    ∧ (startRecording env s).live = s.live
    ∧ (startRecording env s).store = s.store
    ∧ (startRecording env s).errorsFired = s.errorsFired
    ∧ (startRecording env s).alerts = s.alerts ++
        [("Microphone access is required to record consultations.")]
    ∧ (startRecording env s).navBack = true := by
  refine ⟨?_, ?_, ?_, ?_, ?_, ?_, ?_, ?_⟩ <;>
    simp [startRecording, hinit, hrec, hperm]

/-- A fresh session that has not yet acquired anything. -/
def idleState : HookState where
  appointmentId := ("apt1")
  recording := none
  isRecording := false
  isPaused := false
  startTime := none
  metering := -160
  isMounted := true
  isInitializing := false
  store := []
  live := []
  nextId := 0
  alerts := []
  errorsFired := 0
  cancelsFired := 0
  successFired := none
  navBack := false

/-- Closed instance of C6: denying the permission prompt on the fresh
session leaves it with no recorder, no allocation, nothing persisted,
exactly one alert, and the user routed away. -/
theorem permission_denied_terminal_witness :
    (idleState.recording = none ∧ idleState.isInitializing = false)
    ∧ (startRecording ⟨false, true, 0⟩ idleState).recording = none
    ∧ (startRecording ⟨false, true, 0⟩ idleState).isRecording =
        idleState.isRecording
    ∧ (startRecording ⟨false, true, 0⟩ idleState).nextId = idleState.nextId
    ∧ (startRecording ⟨false, true, 0⟩ idleState).live = idleState.live
    ∧ (startRecording ⟨false, true, 0⟩ idleState).store = idleState.store
    ∧ (startRecording ⟨false, true, 0⟩ idleState).errorsFired =
        idleState.errorsFired
    ∧ (startRecording ⟨false, true, 0⟩ idleState).alerts =
        idleState.alerts ++
          [("Microphone access is required to record consultations.")]
    ∧ (startRecording ⟨false, true, 0⟩ idleState).navBack = true := by
  refine ⟨by decide, ?_⟩
  exact permission_denied_terminal ⟨false, true, 0⟩ idleState rfl rfl rfl

/-- C3 counterexample: after a successful stop the session has committed
(one record persisted) yet every input of the metering effect's guard is
unchanged — the hook neither clears `recording` nor `isRecording` nor the
mounted flag on stop, so the interval is not cancelled as part of the
transition — and a pending web tick then publishes a synthesized level
(-50 for a random draw of 0) over the stopped session, a post-stop sample
delivery. -/
theorem post_stop_tick_emits :
    meterEffectActive stoppedOnce = true
    ∧ stoppedOnce.store.length = recState.store.length + 1
    ∧ (tick Plat.web 0 (Except.ok ⟨false, none⟩) stoppedOnce).metering = -50
    ∧ ¬stoppedOnce.metering = -50 := by
  refine ⟨by decide, by decide, ?_, by decide⟩
  have h : (tick Plat.web 0 (Except.ok ⟨false, none⟩) stoppedOnce).metering
      = -50 + 0 * 30 := rfl
  rw [h]
  norm_num

/-- C3 amended: on native platforms no level is published once the recorder
is unloaded (the unloaded recorder reports not-recording, and the tick only
forwards levels while the status says recording); after cancel the cleared
mounted flag makes every later tick a no-op on every platform and falsifies
the metering-effect guard.  (On web, and for the guard after a plain stop,
the original claim fails — see the counterexample.) -/
theorem exit_recording_sampling :
    (∀ (s : HookState) (h : Handle) (r : Rat)
        (statusEnv : Except Unit RecStatus),
        s.recording = some h → h.loaded = false →
        (tick Plat.native r statusEnv s).metering = s.metering)
    ∧ (∀ (s : HookState) (plat : Plat) (r : Rat)
        (statusEnv : Except Unit RecStatus),
        tick plat r statusEnv (cancelRecording s) = cancelRecording s)
    ∧ (∀ s : HookState, meterEffectActive (cancelRecording s) = false) := by
  have hunmounted : ∀ s : HookState, (cancelRecording s).isMounted = false := by
    intro s
    cases hr : s.recording <;> simp [cancelRecording, hr]
  refine ⟨?_, ?_, ?_⟩
  · intro s h r statusEnv hrec hl
    cases hm : s.isMounted <;>
      simp [tick, getStatusModel, hm, hrec, hl]
  · intro s plat r statusEnv
    simp [tick, hunmounted s]
  · intro s
    simp [meterEffectActive, hunmounted s]

/-- Closed instance of the amended C3: a native tick over the stopped
session leaves the metering state untouched even when the environment offers
a level, and after cancelling the Recording-state session a tick is a
complete no-op and the effect guard is false. -/
theorem exit_recording_sampling_witness :
    stoppedOnce.recording = some ⟨0, false⟩
    ∧ (tick Plat.native 0 (Except.ok ⟨true, some (-20)⟩)
        stoppedOnce).metering = stoppedOnce.metering
    ∧ tick Plat.web 0 (Except.ok ⟨true, some (-20)⟩)
        (cancelRecording recState) = cancelRecording recState
    ∧ meterEffectActive (cancelRecording recState) = false := by
  refine ⟨by decide, ?_, ?_, ?_⟩
  · exact exit_recording_sampling.1 stoppedOnce ⟨0, false⟩ 0
      (Except.ok ⟨true, some (-20)⟩) (by decide) rfl
  · exact exit_recording_sampling.2.1 recState Plat.web 0
      (Except.ok ⟨true, some (-20)⟩)
  · exact exit_recording_sampling.2.2 recState

/-- C5 counterexample: two rapid stop calls persist exactly one Consultation,
but the second call is not a no-op — `stopRecording` never clears the
`recording` state, so the second call re-enters, the repeated
`stopAndUnloadAsync` throws, and the catch branch shows one more error alert
and fires `onError` once more, leaving a strictly different state. -/
theorem double_stop_not_noop :
    stoppedOnce.store.length = 1
    ∧ stoppedTwice.store.length = 1
    ∧ ¬stoppedTwice = stoppedOnce
    ∧ stoppedTwice.errorsFired = stoppedOnce.errorsFired + 1
    ∧ stoppedTwice.alerts.length = stoppedOnce.alerts.length + 1 := by decide

/-- C5 amended: after a first fully successful stop, a second stop call
persists nothing (exactly one Consultation exists), leaves the recorder
reference and the live-handle set unchanged (no double release), but fires
exactly one further error alert and one further `onError` instead of doing
nothing. -/
theorem double_stop_once_persisted (env env2 : StopEnv) (s : HookState)
    (h : Handle) (t0 : Int) (u : String)
    (hrec : s.recording = some h) (hl : h.loaded = true)
    (hstart : s.startTime = some t0) (hok : env.stopOk = true)
    (huri : env.uri = some u) (hsave : env.saveOk = true) :
    (stopRecording env s).store.length = s.store.length + 1
    ∧ (stopRecording env2 (stopRecording env s)).store =
        (stopRecording env s).store
    ∧ (stopRecording env2 (stopRecording env s)).recording =
        (stopRecording env s).recording
    ∧ (stopRecording env2 (stopRecording env s)).live =
        (stopRecording env s).live
    ∧ (stopRecording env2 (stopRecording env s)).errorsFired =
        (stopRecording env s).errorsFired + 1
    ∧ (stopRecording env2 (stopRecording env s)).alerts.length =
        (stopRecording env s).alerts.length + 1 := by
  have hone : stopRecording env s =
      { s with
        recording := some ⟨h.hid, false⟩
        live := s.live.erase h.hid
        store := saveConsultation
          { id := env.cid
            appointmentId := s.appointmentId
            patientId := ("")
            audioUri := u
            duration := Int.fdiv (env.now - t0) 1000
            transcription := none
            formattedNote := none
            startedAt := t0
            completedAt := none
            status := CStatus.processing } s.store
        successFired := some env.cid } := by
    simp [stopRecording, hrec, hl, hok, huri, hsave, hstart]
  refine ⟨?_, ?_, ?_, ?_, ?_, ?_⟩ <;>
    rw [hone] <;> simp [stopRecording, stopFailed, saveConsultation]

/-- Closed instance of the amended C5 on the concrete session: the first
stop persists the single record, the second changes neither store nor
recorder nor live handles but fires one further error alert. -/
theorem double_stop_once_persisted_witness :
    (recState.recording = some ⟨0, true⟩
      ∧ recState.startTime = some 0
      ∧ stopEnvOk.stopOk = true
      ∧ stopEnvOk.uri = some ("rec.m4a")
      ∧ stopEnvOk.saveOk = true)
    ∧ stoppedOnce.store.length = recState.store.length + 1
    ∧ stoppedTwice.store = stoppedOnce.store
    ∧ stoppedTwice.recording = stoppedOnce.recording
    ∧ stoppedTwice.live = stoppedOnce.live
    ∧ stoppedTwice.errorsFired = stoppedOnce.errorsFired + 1
    ∧ stoppedTwice.alerts.length = stoppedOnce.alerts.length + 1 := by
  refine ⟨by decide, ?_⟩
  exact double_stop_once_persisted stopEnvOk stopEnvOk recState ⟨0, true⟩ 0
    ("rec.m4a") rfl rfl rfl rfl rfl rfl

/-- C7 counterexample: the hook exposes a single pause control — the
`pauseResume` toggle — so issuing it twice from Recording does not leave
the session Paused: the second invocation resumes.  A double-pause is
therefore not a no-op that stays Paused. -/
theorem double_pause_toggles :
    recState.isPaused = false
    ∧ (pauseResume ⟨true⟩ recState).isPaused = true
    ∧ (pauseResume ⟨true⟩ (pauseResume ⟨true⟩ recState)).isPaused
        = false := by decide

/-- A successful `pauseResume` call negates the paused flag and leaves the
recorder reference unchanged. -/
theorem pauseResume_toggle (s : HookState)
    (hrec : s.recording.isSome = true) :
    (pauseResume ⟨true⟩ s).isPaused = !s.isPaused
    ∧ (pauseResume ⟨true⟩ s).recording = s.recording := by
  cases hr : s.recording with
  | none => rw [hr] at hrec; simp at hrec
  | some h => cases hp : s.isPaused <;> simp [pauseResume, hr, hp]

/-- Iterating the toggle preserves the recorder and alternates the paused
flag with the parity of the call count. -/
theorem pauseResume_iterate (n : Nat) (s : HookState)
    (hrec : s.recording.isSome = true) :
    ((pauseResume ⟨true⟩)^[n] s).recording = s.recording
    ∧ ((pauseResume ⟨true⟩)^[n] s).isPaused =
        Bool.xor (decide (n % 2 = 1)) s.isPaused := by
  induction n with
  | zero => simp
  | succ n ih =>
      obtain ⟨ihrec, ihp⟩ := ih
      have hrec' : ((pauseResume ⟨true⟩)^[n] s).recording.isSome = true := by
        rw [ihrec]; exact hrec
      have hstep := pauseResume_toggle ((pauseResume ⟨true⟩)^[n] s) hrec'
      rw [Function.iterate_succ_apply']
      refine ⟨by rw [hstep.2, ihrec], ?_⟩
      rw [hstep.1, ihp]
      rcases Nat.even_or_odd n with he | ho
      · have h0 : n % 2 = 0 := Nat.even_iff.mp he
        have h1 : ¬n % 2 = 1 := by omega
        have h2 : (n + 1) % 2 = 1 := by omega
        simp [h1, h2]
      · have h1 : n % 2 = 1 := Nat.odd_iff.mp ho
        have h2 : ¬(n + 1) % 2 = 1 := by omega
        simp [h1, h2]

/-- C7 amended: pause and resume are one toggle, not two idempotent
operations — after any sequence of n successful toggle calls starting from
a non-paused session holding a recorder, the session is Paused exactly when
n is odd (so the end state tracks call parity, and a repeated call undoes
rather than repeats the previous one), while the recorder reference is
untouched throughout. -/
theorem pauseResume_parity (n : Nat) (s : HookState)
    (hrec : s.recording.isSome = true) (hp : s.isPaused = false) :
    ((pauseResume ⟨true⟩)^[n] s).isPaused = decide (n % 2 = 1)
    ∧ ((pauseResume ⟨true⟩)^[n] s).recording = s.recording := by
  obtain ⟨h1, h2⟩ := pauseResume_iterate n s hrec
  rw [hp] at h2
  refine ⟨?_, h1⟩
  rw [h2]
  cases decide (n % 2 = 1) <;> rfl

/-- Closed instance of the amended C7: two toggle calls on the concrete
Recording-state session end not-paused (even parity) with the recorder
unchanged. -/
theorem pauseResume_parity_witness :
    (recState.recording.isSome = true ∧ recState.isPaused = false)
    ∧ ((pauseResume ⟨true⟩)^[2] recState).isPaused = decide (2 % 2 = 1)
    ∧ ((pauseResume ⟨true⟩)^[2] recState).recording = recState.recording := by
  refine ⟨by decide, ?_, ?_⟩
  · exact (pauseResume_parity 2 recState (by decide) rfl).1
  · exact (pauseResume_parity 2 recState (by decide) rfl).2

end CareFlow
